import Mathlib

/-!
Verification of the per-request credential/configuration resolution layer of
the mcp-grafana server, shallowly embedded from the Go source.  Go strings are
modelled as lists of characters; Go `context.Context` as an explicit chain of
key/value pairs; fallible operations return `Except`; a Go `panic` is an
explicit `Outcome.panicked` value.  External collaborators (the Go standard
library's `net/url` parser, the filesystem, the HTTP transport and the JSON
decoder) are modelled as explicit parameters so that every code path of the
embedded functions is executable.
-/

/-- Go strings, modelled as lists of characters. -/
abbrev Str := List Char

/-- Model of Go `strings.TrimRight(s, cutset)`: removes trailing characters
belonging to `cutset`. -/
def goTrimRight (cutset : List Char) (s : Str) : Str :=
  (s.reverse.dropWhile (fun c => cutset.contains c)).reverse

/-- `strings.TrimRight(s, "/")`, the form used throughout the source. -/
def trimRightSlash (s : Str) : Str := goTrimRight ['/'] s

/-- Model of Go `strings.Join(xs, sep)`. -/
def goJoin (sep : Str) (xs : List Str) : Str := (xs.intersperse sep).flatten

/-- Decimal rendering of a Go integer, as produced by `fmt.Sprintf("%d", i)`. -/
def intToStr (i : Int) : Str :=
  if i < 0 then '-' :: Nat.toDigits 10 i.natAbs else Nat.toDigits 10 i.toNat

/-- `defaultGrafanaHost` from mcpgrafana.go. -/
def defaultGrafanaHost : Str := "localhost:3000".data

/-- `defaultGrafanaURL = "http://" + defaultGrafanaHost` from mcpgrafana.go. -/
def defaultGrafanaURL : Str := "http://".data ++ defaultGrafanaHost

/-- `TLSConfig` from mcpgrafana.go: declarative TLS settings. -/
structure TLSConfig where
  certFile : Str := []
  keyFile : Str := []
  caFile : Str := []
  skipVerify : Bool := false
deriving DecidableEq, Repr

/-- `GrafanaConfig` from mcpgrafana.go: the resolved per-request
configuration.  Field defaults are the Go zero values. -/
structure GrafanaConfig where
  debug : Bool := false
  url : Str := []
  apiKey : Str := []
  accessToken : Str := []
  idToken : Str := []
  tlsConfig : Option TLSConfig := none
deriving DecidableEq, Repr

/-- The unexported context-key types of the package (`grafanaConfigKey`,
`grafanaURLKey`, `grafanaAPIKeyKey`, `grafanaAccessTokenKey`,
`grafanaDebugKey`). -/
inductive CtxKey where
  | grafanaConfig
  | grafanaURL
  | grafanaAPIKey
  | grafanaAccessToken
  | grafanaDebug
deriving DecidableEq, Repr

/-- The values the package stores in a context. -/
inductive CtxVal where
  | str (s : Str)
  | strPair (a b : Str)
  | bool (b : Bool)
  | config (c : GrafanaConfig)
deriving DecidableEq, Repr

/-- Model of Go `context.Context`: `context.Background()` plus
`context.WithValue` chains. -/
inductive Context where
  | background
  | withValue (key : CtxKey) (val : CtxVal) (parent : Context)
deriving DecidableEq, Repr

/-- `ctx.Value(key)`: nearest value for `key`, walking outward. -/
def Context.value : Context → CtxKey → Option CtxVal
  | .background, _ => none
  | .withValue k v p, k2 => if k2 = k then some v else p.value k2

/-- `WithGrafanaConfig`: attaches a `GrafanaConfig` to the context. -/
def withGrafanaConfig (ctx : Context) (config : GrafanaConfig) : Context :=
  .withValue .grafanaConfig (.config config) ctx

/-- `GrafanaConfigFromContext`: extracts the nearest attached config, or the
zero-value `GrafanaConfig` if none is found. -/
def grafanaConfigFromContext (ctx : Context) : GrafanaConfig :=
  match ctx.value .grafanaConfig with
  | some (.config c) => c
  | _ => {}

/-- `WithGrafanaURL` (earlier revision of the context API). -/
def withGrafanaURL (ctx : Context) (url : Str) : Context :=
  .withValue .grafanaURL (.str url) ctx

/-- `WithGrafanaAPIKey` (earlier revision of the context API). -/
def withGrafanaAPIKey (ctx : Context) (apiKey : Str) : Context :=
  .withValue .grafanaAPIKey (.str apiKey) ctx

/-- `GrafanaURLFromContext`: the stored URL, else `defaultGrafanaURL`. -/
def grafanaURLFromContext (ctx : Context) : Str :=
  match ctx.value .grafanaURL with
  | some (.str u) => u
  | _ => defaultGrafanaURL

/-- `GrafanaAPIKeyFromContext`: the stored API key, else the empty string. -/
def grafanaAPIKeyFromContext (ctx : Context) : Str :=
  match ctx.value .grafanaAPIKey with
  | some (.str k) => k
  | _ => []

/-- `OnBehalfOfAuthFromContext`: the stored access/user token pair, else a
pair of empty strings. -/
def onBehalfOfAuthFromContext (ctx : Context) : Str × Str :=
  match ctx.value .grafanaAccessToken with
  | some (.strPair a b) => (a, b)
  | _ => ([], [])

/-- `GrafanaDebugFromContext`: the stored debug flag, else `false`. -/
def grafanaDebugFromContext (ctx : Context) : Bool :=
  match ctx.value .grafanaDebug with
  | some (.bool b) => b
  | _ => false

/-- `ExtractGrafanaInfoFromHeaders` (the HTTP/SSE composer): the header and
environment readers both trim trailing slashes from the URL; the URL and the
API key each fall back from header to environment, the URL further to the
builtin default; the result is written onto the config already in the
context.  The two header arguments model `req.Header.Get`, which yields the
empty string for an absent header; likewise the env arguments model
`os.Getenv`. -/
def extractGrafanaInfoFromHeaders (ctx : Context)
    (hdrURL hdrAPIKey envURL envAPIKey : Str) : Context :=
  let u0 := trimRightSlash hdrURL
  let uEnv := trimRightSlash envURL
  let u1 := if u0 = [] then uEnv else u0
  let u2 := if u1 = [] then defaultGrafanaURL else u1
  let apiKey := if hdrAPIKey = [] then envAPIKey else hdrAPIKey
  let config := grafanaConfigFromContext ctx
  withGrafanaConfig ctx { config with url := u2, apiKey := apiKey }

/-- `WithOnBehalfOfAuth`: rejects an empty access or user token with the
error message used by the source, otherwise attaches both tokens to the
resolved config. -/
def withOnBehalfOfAuth (ctx : Context) (accessToken userToken : Str) :
    Except Str Context :=
  if accessToken = [] ∨ userToken = [] then
    .error ("neither accessToken nor userToken can be empty".data)
  else
    let cfg := grafanaConfigFromContext ctx
    .ok (withGrafanaConfig ctx
      { cfg with accessToken := accessToken, idToken := userToken })

/-- True of the ASCII control characters rejected by Go's `net/url.Parse`
(`stringContainsCTLByte`). -/
def isCtlByte (c : Char) : Bool := c.toNat < 0x20 || c.toNat == 0x7f

/-- The parts of a parsed URL the source reads (`url.Scheme`, `url.Host`,
`url.Path`). -/
structure GoURL where
  scheme : Str := []
  host : Str := []
  path : Str := []
deriving DecidableEq, Repr

/-- Splits a URL at the first scheme separator, yielding the scheme and the
remainder. -/
def schemeSplit : Str → Option (Str × Str)
  | [] => none
  | ':' :: '/' :: '/' :: rest => some ([], rest)
  | c :: rest => (schemeSplit rest).map (fun p => (c :: p.1, p.2))

/-- Model of Go `net/url.Parse`.  It reproduces exactly the control-character
rejection Go performs up front (other Go parse failures, such as invalid
ports, are not modelled: the theorems below only rely on inputs this model
rejects, all of which Go also rejects).  On success the URL is split naively
into scheme, host and path, which is all the source reads. -/
def goURLParse (s : Str) : Except Str GoURL :=
  if s.any isCtlByte then
    .error ("net/url: invalid control character in URL".data)
  else
    .ok (match schemeSplit s with
      | some (sch, rest) =>
        { scheme := sch,
          host := rest.takeWhile (fun c => c ≠ '/'),
          path := rest.dropWhile (fun c => c ≠ '/') }
      | none => { scheme := [], host := [], path := s })

/-- Result of running a Go function that may `panic`. -/
inductive Outcome (α : Type) where
  | ok (val : α)
  | panicked (msg : Str)
deriving DecidableEq, Repr

/-- Whether an `Outcome` is a panic. -/
def Outcome.isPanicked : Outcome α → Bool
  | .ok _ => false
  | .panicked _ => true

/-- `ExtractGrafanaInfoFromEnv` (the stdio composer): reads the environment,
substitutes the default URL when the env URL is empty after trimming, then
parses the URL and panics if parsing fails; on success it writes URL and API
key onto the config already in the context. -/
def extractGrafanaInfoFromEnv (ctx : Context) (envURL envAPIKey : Str) :
    Outcome Context :=
  let u0 := trimRightSlash envURL
  let u := if u0 = [] then defaultGrafanaURL else u0
  match goURLParse u with
  | .error e =>
    .panicked ("invalid Grafana URL ".data ++ u ++ ": ".data ++ e)
  | .ok _ =>
    let config := grafanaConfigFromContext ctx
    .ok (withGrafanaConfig ctx
      { config with url := u, apiKey := envAPIKey })

/-- `makeBasePath` from mcpgrafana.go:
`strings.Join([]string{strings.TrimRight(path, "/"), "api"}, "/")`. -/
def makeBasePath (path : Str) : Str :=
  goJoin "/".data [trimRightSlash path, "api".data]

/-- The transport configuration of the upstream Grafana openapi client (the
fields the source assigns).  Defaults model
`client.DefaultTransportConfig()`. -/
structure TransportConfig where
  host : Str := "localhost:3000".data
  basePath : Str := "/api".data
  schemes : List Str := ["http".data, "https".data]
  apiKey : Str := []
  debug : Bool := false
deriving DecidableEq, Repr

/-- `ExtractGrafanaClientFromHeaders`, earlier (SSE) revision: headers are
read untrimmed, the env URL trimmed; header falls back to env; a non-empty
URL is parsed and, only when parsing succeeds, host, base path and scheme are
taken from it — a parse failure silently leaves the library defaults in
place.  Returns the transport configuration the Grafana client is built
with. -/
def extractGrafanaClientFromHeadersV1 (ctx : Context)
    (hdrURL hdrAPIKey envURL envAPIKey : Str) : TransportConfig :=
  let cfg : TransportConfig := {}
  let uEnv := trimRightSlash envURL
  let u := if hdrURL = [] then uEnv else hdrURL
  let apiKey := if hdrAPIKey = [] then envAPIKey else hdrAPIKey
  let cfg :=
    if u ≠ [] then
      match goURLParse u with
      | .ok parsed =>
        { cfg with
          host := parsed.host
          basePath := makeBasePath parsed.path
          schemes :=
            if parsed.scheme = "http".data then ["http".data]
            else cfg.schemes }
      | .error _ => cfg
    else cfg
  let cfg := if apiKey ≠ [] then { cfg with apiKey := apiKey } else cfg
  { cfg with debug := grafanaDebugFromContext ctx }

/-- The external collaborators of `CreateTLSConfig`: the filesystem and the
crypto library.  `loadKeyPair` models `tls.LoadX509KeyPair` (the certificate
is an opaque id), `readFile` models `os.ReadFile`, and `appendCertsFromPEM`
models `x509.CertPool.AppendCertsFromPEM`. -/
structure GoFS where
  loadKeyPair : Str → Str → Except Str Nat
  readFile : Str → Except Str Str
  appendCertsFromPEM : Str → Bool

/-- The parts of Go's `tls.Config` the source assigns. -/
structure GoTLSConfig where
  insecureSkipVerify : Bool := false
  certificates : List Nat := []
  rootCAs : Option Str := none
deriving DecidableEq, Repr

/-- `TLSConfig.CreateTLSConfig`: a nil receiver yields an absent config; the
client certificate pair is loaded only when BOTH cert and key files are
non-empty; the CA file, when present, must be readable and parse as PEM. -/
def createTLSConfig (fs : GoFS) : Option TLSConfig → Except Str (Option GoTLSConfig)
  | none => .ok none
  | some tc =>
    let base : GoTLSConfig := { insecureSkipVerify := tc.skipVerify }
    let step1 : Except Str GoTLSConfig :=
      if tc.certFile ≠ [] ∧ tc.keyFile ≠ [] then
        match fs.loadKeyPair tc.certFile tc.keyFile with
        | .error e => .error ("failed to load client certificate: ".data ++ e)
        | .ok cert => .ok { base with certificates := [cert] }
      else .ok base
    match step1 with
    | .error e => .error e
    | .ok cfg =>
      if tc.caFile ≠ [] then
        match fs.readFile tc.caFile with
        | .error e => .error ("failed to read CA certificate: ".data ++ e)
        | .ok caCert =>
          if fs.appendCertsFromPEM caCert then
            .ok (some { cfg with rootCAs := some caCert })
          else .error ("failed to parse CA certificate".data)
      else .ok (some cfg)

/-- HTTP headers.  `http.Header.Set` replaces any existing value for the
key, so the model keeps at most one entry per key. -/
abbrev Headers := List (Str × Str)

/-- `req.Header.Set(k, v)`. -/
def setHeader (h : Headers) (k v : Str) : Headers :=
  (k, v) :: h.filter (fun p => decide (p.1 ≠ k))

/-- `req.Header.Get(k)`, as an `Option` to distinguish an absent header. -/
def getHeader (h : Headers) (k : Str) : Option Str :=
  (h.find? (fun p => decide (p.1 = k))).map (fun p => p.2)

/-- The credential fields carried by the Loki `authRoundTripper`. -/
structure AuthFields where
  accessToken : Str := []
  idToken : Str := []
  apiKey : Str := []
deriving DecidableEq, Repr

/-- `authRoundTripper.RoundTrip`'s header mutation: if both tokens are
non-empty, set the token pair headers; else if the API key is non-empty, set
the single bearer Authorization header; else leave the request untouched. -/
def authRoundTripHeaders (rt : AuthFields) (h : Headers) : Headers :=
  if rt.accessToken ≠ [] ∧ rt.idToken ≠ [] then
    setHeader (setHeader h "X-Access-Token".data rt.accessToken)
      "X-Grafana-Id".data rt.idToken
  else if rt.apiKey ≠ [] then
    setHeader h "Authorization".data ("Bearer ".data ++ rt.apiKey)
  else h

/-- An upstream HTTP call recorded while running a tool pipeline. -/
inductive UpstreamCall where
  | datasourceLookup (uid : Str)
  | lokiRequest (url : Str) (params : List (Str × Str))
  | grafanaAPI (url : Str)
deriving DecidableEq, Repr

/-- One decoded Loki query-range response (`QueryRangeResponse` flattened to
the fields the source reads).  `values` holds raw JSON fragments as text. -/
structure LogStream where
  stream : List (Str × Str) := []
  values : List (List Str) := []
deriving DecidableEq, Repr

/-- `QueryRangeResponse` from loki.go. -/
structure QueryRangeResponse where
  status : Str := []
  resultType : Str := []
  result : List LogStream := []
deriving DecidableEq, Repr

/-- `LogEntry` from loki.go.  Numeric metric values (`float64` in Go) are
modelled as rationals produced by the environment's parser. -/
structure LogEntry where
  timestamp : Str := []
  line : Str := []
  value : Option Rat := none
  labels : List (Str × Str) := []
deriving DecidableEq, Repr

/-- External collaborators of the Loki tools: the datasource lookup made
through the Grafana client (`getDatasourceByUID`), the HTTP transport
(status code and body per request), the JSON decoders, the RFC3339 time
parser (returning Unix nanoseconds) and the wall clock. -/
structure LokiEnv where
  lookupDatasource : Str → Except Str Unit
  httpDo : Str → List (Str × Str) → Except Str (Int × Str)
  decodeQueryRange : Str → Option QueryRangeResponse
  unmarshalString : Str → Option Str
  parseFloat : Str → Option Rat
  unmarshalFloat : Str → Option Rat
  parseRFC3339 : Str → Option Int
  nowRFC3339 : Str := []
  oneHourAgoRFC3339 : Str := []

/-- `Client` from loki.go: base URL plus the auth fields its transport
injects. -/
structure LokiClient where
  baseURL : Str
  auth : AuthFields
deriving DecidableEq, Repr

/-- `newLokiClient`: first confirms the datasource exists (an upstream
lookup); only then builds the proxied client, wiring the TLS transport (which
can fail) and the auth round-tripper.  Returns the result together with the
trace of upstream calls made. -/
def newLokiClient (env : LokiEnv) (fs : GoFS) (cfg : GrafanaConfig)
    (uid : Str) : Except Str LokiClient × List UpstreamCall :=
  match env.lookupDatasource uid with
  | .error e => (.error e, [.datasourceLookup uid])
  | .ok _ =>
    let url := trimRightSlash cfg.url
      ++ "/api/datasources/proxy/uid/".data ++ uid
    let transportResult : Except Str Unit :=
      match cfg.tlsConfig with
      | some t =>
        match createTLSConfig fs (some t) with
        | .error e => .error ("failed to create custom transport: ".data ++ e)
        | .ok _ => .ok ()
      | none => .ok ()
    match transportResult with
    | .error e => (.error e, [.datasourceLookup uid])
    | .ok _ =>
      (.ok { baseURL := url,
             auth := { accessToken := cfg.accessToken,
                       idToken := cfg.idToken,
                       apiKey := cfg.apiKey } },
       [.datasourceLookup uid])

/-- `Client.buildURL` from loki.go. -/
def buildURL (c : LokiClient) (urlPath : Str) : Str :=
  if c.baseURL.getLast? ≠ some '/' ∧ urlPath.head? ≠ some '/' then
    c.baseURL ++ '/' :: urlPath
  else if c.baseURL.getLast? = some '/' ∧ urlPath.head? = some '/' then
    c.baseURL ++ urlPath.drop 1
  else
    c.baseURL ++ urlPath

/-- ASCII whitespace trimmed by `bytes.TrimSpace`. -/
def isGoSpace (c : Char) : Bool :=
  c = ' ' || c = '\t' || c = '\n' || c = '\r'
    || c = Char.ofNat 0x0b || c = Char.ofNat 0x0c

/-- Model of `bytes.TrimSpace`. -/
def goTrimSpace (s : Str) : Str :=
  ((s.dropWhile isGoSpace).reverse.dropWhile isGoSpace).reverse

/-- `Client.makeRequest` from loki.go: build the URL, parse it (failing
before any call), perform the request, reject non-200 statuses and empty
bodies, and return the trimmed body. -/
def lokiMakeRequest (env : LokiEnv) (c : LokiClient) (urlPath : Str)
    (params : List (Str × Str)) : Except Str Str × List UpstreamCall :=
  let fullURL := buildURL c urlPath
  match goURLParse fullURL with
  | .error e => (.error ("parsing URL: ".data ++ e), [])
  | .ok _ =>
    match env.httpDo fullURL params with
    | .error e =>
      (.error ("executing request: ".data ++ e), [.lokiRequest fullURL params])
    | .ok (status, body) =>
      if status ≠ 200 then
        (.error ("Loki API returned status code ".data ++ intToStr status
          ++ ": ".data ++ body), [.lokiRequest fullURL params])
      else if body = [] then
        (.error ("empty response from Loki API".data),
         [.lokiRequest fullURL params])
      else
        (.ok (goTrimSpace body), [.lokiRequest fullURL params])

/-- `addTimeRangeParams` from loki.go: converts non-empty RFC3339 bounds to
Unix nanoseconds and appends them as `start`/`end` parameters. -/
def addTimeRangeParams (env : LokiEnv) (params : List (Str × Str))
    (startRFC3339 endRFC3339 : Str) : Except Str (List (Str × Str)) :=
  let afterStart : Except Str (List (Str × Str)) :=
    if startRFC3339 ≠ [] then
      match env.parseRFC3339 startRFC3339 with
      | none => .error ("parsing start time".data)
      | some ns => .ok (params ++ [("start".data, intToStr ns)])
    else .ok params
  match afterStart with
  | .error e => .error e
  | .ok params1 =>
    if endRFC3339 ≠ [] then
      match env.parseRFC3339 endRFC3339 with
      | none => .error ("parsing end time".data)
      | some ns => .ok (params1 ++ [("end".data, intToStr ns)])
    else .ok params1

/-- `getDefaultTimeRange` from loki.go, with the wall clock supplied by the
environment. -/
def getDefaultTimeRange (env : LokiEnv) (startRFC3339 endRFC3339 : Str) :
    Str × Str :=
  (if startRFC3339 = [] then env.oneHourAgoRFC3339 else startRFC3339,
   if endRFC3339 = [] then env.nowRFC3339 else endRFC3339)

/-- `DefaultLokiLogLimit` from loki.go. -/
def defaultLokiLogLimit : Int := 10

/-- `MaxLokiLogLimit` from loki.go. -/
def maxLokiLogLimit : Int := 100

/-- `enforceLogLimit` from loki.go. -/
def enforceLogLimit (requestedLimit : Int) : Int :=
  if requestedLimit ≤ 0 then defaultLokiLogLimit
  else if requestedLimit > maxLokiLogLimit then maxLokiLogLimit
  else requestedLimit

/-- `Client.fetchLogs` from loki.go: builds the query parameters (the limit
is included only when positive, the direction only when non-empty), makes
the request and decodes/validates the response. -/
def fetchLogs (env : LokiEnv) (c : LokiClient)
    (query startRFC3339 endRFC3339 : Str) (limit : Int) (direction : Str) :
    Except Str (List LogStream) × List UpstreamCall :=
  let params0 : List (Str × Str) := [("query".data, query)]
  match addTimeRangeParams env params0 startRFC3339 endRFC3339 with
  | .error e => (.error e, [])
  | .ok params1 =>
    let params2 :=
      if limit > 0 then params1 ++ [("limit".data, intToStr limit)]
      else params1
    let params3 :=
      if direction ≠ [] then params2 ++ [("direction".data, direction)]
      else params2
    match lokiMakeRequest env c "/loki/api/v1/query_range".data params3 with
    | (.error e, tr) => (.error e, tr)
    | (.ok body, tr) =>
      match env.decodeQueryRange body with
      | none => (.error ("unmarshalling response".data), tr)
      | some qr =>
        if qr.status ≠ "success".data then
          (.error ("Loki API returned unexpected response format".data), tr)
        else (.ok qr.result, tr)

/-- Go map indexing `m[k]` with the zero-value default. -/
def mapLookupD (m : List (Str × Str)) (k : Str) : Str :=
  match m.find? (fun p => decide (p.1 = k)) with
  | some p => p.2
  | none => []

/-- One iteration of `queryLokiLogs`' conversion loop: a raw
`[timestamp, value]` pair becomes a `LogEntry`, or is skipped (`none`) when
it is too short or its value fails to decode. -/
def convertValue (env : LokiEnv) (stream : List (Str × Str)) :
    List Str → Option LogEntry
  | t :: v :: _ =>
    if mapLookupD stream "__type__".data = "metrics".data then
      match env.unmarshalString v with
      | some numStr =>
        match env.parseFloat numStr with
        | some r => some { timestamp := t, value := some r, labels := stream }
        | none => none
      | none =>
        match env.unmarshalFloat v with
        | some r => some { timestamp := t, value := some r, labels := stream }
        | none => none
    else
      match env.unmarshalString v with
      | some l => some { timestamp := t, line := l, labels := stream }
      | none => none
  | _ => none

/-- The full conversion loop of `queryLokiLogs`. -/
def convertStreams (env : LokiEnv) (streams : List LogStream) :
    List LogEntry :=
  (streams.map (fun st => st.values.filterMap (convertValue env st.stream))).flatten

/-- `QueryLokiLogsParams` from loki.go. -/
structure QueryLokiLogsParams where
  datasourceUID : Str := []
  logql : Str := []
  startRFC3339 : Str := []
  endRFC3339 : Str := []
  limit : Int := 0
  direction : Str := []
deriving DecidableEq, Repr

/-- `queryLokiLogs` from loki.go: builds the client (datasource lookup
first), fills in time-range and direction defaults, clamps the limit via
`enforceLogLimit`, fetches and converts the streams.  Returns the result and
the upstream-call trace. -/
def queryLokiLogs (env : LokiEnv) (fs : GoFS) (cfg : GrafanaConfig)
    (args : QueryLokiLogsParams) :
    Except Str (List LogEntry) × List UpstreamCall :=
  match newLokiClient env fs cfg args.datasourceUID with
  | (.error e, tr) => (.error ("creating Loki client: ".data ++ e), tr)
  | (.ok c, tr) =>
    let range := getDefaultTimeRange env args.startRFC3339 args.endRFC3339
    let limit := enforceLogLimit args.limit
    let direction :=
      if args.direction = [] then "backward".data else args.direction
    match fetchLogs env c args.logql range.1 range.2 limit direction with
    | (.error e, tr2) => (.error e, tr ++ tr2)
    | (.ok streams, tr2) =>
      if streams.length = 0 then (.ok [], tr ++ tr2)
      else
        let entries := convertStreams env streams
        if entries.length = 0 then (.ok [], tr ++ tr2)
        else (.ok entries, tr ++ tr2)

/-- Modelled from the spec: the label-selector matcher (`Selector.Matches`)
lives in a repository file not included here; the alerting tool only uses it
as a fallible predicate on a rule's label set, so it is modelled as exactly
that interface. -/
structure Selector where
  selMatches : List (Str × Str) → Except Str Bool

/-- `alertingRule` (the fields the alerting tool reads). -/
structure AlertingRule where
  uid : Str := []
  name : Str := []
  state : Str := []
  labels : List (Str × Str) := []
deriving DecidableEq, Repr

/-- A rule group of the rules response. -/
structure RuleGroup where
  rules : List AlertingRule := []
deriving DecidableEq, Repr

/-- The decoded `rulesResponse`. -/
structure RulesResponse where
  ruleGroups : List RuleGroup := []
deriving DecidableEq, Repr

/-- `alertRuleSummary` from alerting.go. -/
structure AlertRuleSummary where
  uid : Str := []
  title : Str := []
  state : Str := []
  labels : List (Str × Str) := []
deriving DecidableEq, Repr

/-- `matchesSelectors` from alerting.go: a rule matches when every selector
matches; the first selector error aborts. -/
def matchesSelectors (rule : AlertingRule) : List Selector → Except Str Bool
  | [] => .ok true
  | s :: rest =>
    match s.selMatches rule.labels with
    | .error e => .error e
    | .ok false => .ok false
    | .ok true => matchesSelectors rule rest

/-- `filterAlertRules` from alerting.go. -/
def filterAlertRules (rules : List AlertingRule) (selectors : List Selector) :
    Except Str (List AlertingRule) :=
  if selectors.length = 0 then .ok rules
  else go rules
where
  go : List AlertingRule → Except Str (List AlertingRule)
    | [] => .ok []
    | r :: rest =>
      match matchesSelectors r selectors with
      | .error e => .error ("filtering alert rules: ".data ++ e)
      | .ok b =>
        match go rest with
        | .error e => .error e
        | .ok tl => .ok (if b then r :: tl else tl)

/-- `DefaultListAlertRulesLimit` from alerting.go. -/
def defaultListAlertRulesLimit : Int := 100

/-- `applyPagination` from alerting.go (it never returns a non-nil error, so
it is embedded as a pure function). -/
def applyPagination (items : List AlertingRule) (limit0 page0 : Int) :
    List AlertingRule :=
  let limit := if limit0 = 0 then defaultListAlertRulesLimit else limit0
  let page := if page0 = 0 then 1 else page0
  let start := (page - 1) * limit
  let stop := start + limit
  if start ≥ (items.length : Int) then []
  else if stop > (items.length : Int) then items.drop start.toNat
  else (items.take stop.toNat).drop start.toNat

/-- `summarizeAlertRules` from alerting.go. -/
def summarizeAlertRules (alertRules : List AlertingRule) :
    List AlertRuleSummary :=
  alertRules.map (fun r =>
    { uid := r.uid, title := r.name, state := r.state, labels := r.labels })

/-- `ListAlertRulesParams` from alerting.go. -/
structure ListAlertRulesParams where
  limit : Int := 0
  page : Int := 0
  labelSelectors : List Selector := []

/-- `ListAlertRulesParams.validate`: rejects negative limit or page. -/
def listAlertRulesValidate (p : ListAlertRulesParams) : Except Str Unit :=
  if p.limit < 0 then
    .error ("invalid limit: ".data ++ intToStr p.limit
      ++ ", must be greater than 0".data)
  else if p.page < 0 then
    .error ("invalid page: ".data ++ intToStr p.page
      ++ ", must be greater than 0".data)
  else .ok ()

/-- `alertingClient` (the auth-relevant fields plus the parsed base URL). -/
structure AlertingClient where
  baseURL : GoURL
  accessToken : Str := []
  userToken : Str := []
  apiKey : Str := []
deriving DecidableEq, Repr

/-- `newAlertingClientFromContext`: trims and parses the context's Grafana
URL (failing with a typed error on a parse failure) and snapshots the auth
material from the context. -/
def newAlertingClientFromContext (ctx : Context) :
    Except Str AlertingClient :=
  let baseURL := trimRightSlash (grafanaURLFromContext ctx)
  match goURLParse baseURL with
  | .error e => .error ("invalid Grafana base URL: ".data ++ e)
  | .ok u =>
    let tokens := onBehalfOfAuthFromContext ctx
    .ok { baseURL := u
          accessToken := tokens.1
          userToken := tokens.2
          apiKey := grafanaAPIKeyFromContext ctx }

/-- Rendering of a parsed URL back to a string (`url.URL.String` restricted
to the shapes this model produces). -/
def goURLString (u : GoURL) : Str :=
  (if u.scheme ≠ [] then u.scheme ++ "://".data else []) ++ u.host ++ u.path

/-- Simplified model of `url.URL.JoinPath` for the shapes used here: the
joined path gets exactly one slash at the join. -/
def goURLJoinPath (u : GoURL) (p : Str) : GoURL :=
  { u with path := trimRightSlash u.path
      ++ (if p.head? = some '/' then p else '/' :: p) }

/-- `rulesEndpointPath` from the alerting client. -/
def rulesEndpointPath : Str := "/api/prometheus/grafana/api/v1/rules".data

/-- The headers `alertingClient.makeRequest` sends: the fixed Accept and
Content-Type headers, then the same one-scheme auth selection as the Loki
round-tripper (token pair first, else bearer key, else nothing). -/
def alertingRequestHeaders (c : AlertingClient) : Headers :=
  let base := setHeader
    (setHeader [] "Accept".data "application/json".data)
    "Content-Type".data "application/json".data
  if c.accessToken ≠ [] ∧ c.userToken ≠ [] then
    setHeader (setHeader base "X-Access-Token".data c.accessToken)
      "X-Grafana-Id".data c.userToken
  else if c.apiKey ≠ [] then
    setHeader base "Authorization".data ("Bearer ".data ++ c.apiKey)
  else base

/-- External collaborators of the alerting client: the HTTP transport and
the JSON decoder of the rules response. -/
structure AlertingEnv where
  httpDo : Str → Headers → Except Str (Int × Str)
  decodeRules : Str → Option RulesResponse

/-- `alertingClient.makeRequest`: joins the path onto the base URL, sends
the request with `alertingRequestHeaders`, and rejects non-200 statuses. -/
def alertingMakeRequest (env : AlertingEnv) (c : AlertingClient)
    (path : Str) : Except Str Str × List UpstreamCall :=
  let p := goURLString (goURLJoinPath c.baseURL path)
  match env.httpDo p (alertingRequestHeaders c) with
  | .error e =>
    (.error ("failed to execute request: ".data ++ e), [.grafanaAPI p])
  | .ok (status, body) =>
    if status ≠ 200 then
      (.error ("Grafana API returned status code ".data ++ intToStr status
        ++ ": ".data ++ body), [.grafanaAPI p])
    else (.ok body, [.grafanaAPI p])

/-- `alertingClient.GetRules`. -/
def getRules (env : AlertingEnv) (c : AlertingClient) :
    Except Str RulesResponse × List UpstreamCall :=
  match alertingMakeRequest env c rulesEndpointPath with
  | (.error e, tr) =>
    (.error ("failed to get alert rules from Grafana API: ".data ++ e), tr)
  | (.ok body, tr) =>
    match env.decodeRules body with
    | none => (.error ("failed to decode rules response".data), tr)
    | some r => (.ok r, tr)

/-- `listAlertRules` from alerting.go: validate the arguments first (before
the client is even built), then fetch, filter, paginate and summarize.
Returns the result and the upstream-call trace. -/
def listAlertRules (env : AlertingEnv) (ctx : Context)
    (args : ListAlertRulesParams) :
    Except Str (List AlertRuleSummary) × List UpstreamCall :=
  match listAlertRulesValidate args with
  | .error e => (.error ("list alert rules: ".data ++ e), [])
  | .ok _ =>
    match newAlertingClientFromContext ctx with
    | .error e => (.error ("list alert rules: ".data ++ e), [])
    | .ok c =>
      match getRules env c with
      | (.error e, tr) => (.error ("list alert rules: ".data ++ e), tr)
      | (.ok resp, tr) =>
        let alertRules := (resp.ruleGroups.map (fun g => g.rules)).flatten
        match filterAlertRules alertRules args.labelSelectors with
        | .error e => (.error ("list alert rules: ".data ++ e), tr)
        | .ok filtered =>
          (.ok (summarizeAlertRules
            (applyPagination filtered args.limit args.page)), tr)

/-- Whether an `Except` is an error. -/
def exceptIsError : Except ε α → Bool
  | .error _ => true
  | .ok _ => false

/-- Attach-then-resolve is the identity on configs (shared helper). -/
theorem grafanaConfig_attach_resolve (ctx : Context) (c : GrafanaConfig) :
    grafanaConfigFromContext (withGrafanaConfig ctx c) = c := rfl

/-- C1: in the request-oriented composer `ExtractGrafanaInfoFromHeaders`,
baseURL and apiKey are each resolved independently, field by field: the
(trimmed, per the header reader) header value when non-empty, else the
(trimmed) environment value when non-empty, else the builtin default — the
well-known local URL for the baseURL and the empty string for the apiKey.
In particular a header URL with no header key combined with an env key and
no env URL resolves to the header URL paired with the env key. -/
theorem claim_C1_field_by_field_precedence :
    (∀ (ctx : Context) (hdrURL hdrAPIKey envURL envAPIKey : Str),
      (grafanaConfigFromContext
        (extractGrafanaInfoFromHeaders ctx hdrURL hdrAPIKey envURL envAPIKey)).url
        = (if trimRightSlash hdrURL ≠ [] then trimRightSlash hdrURL
           else if trimRightSlash envURL ≠ [] then trimRightSlash envURL
           else defaultGrafanaURL)
      ∧ (grafanaConfigFromContext
        (extractGrafanaInfoFromHeaders ctx hdrURL hdrAPIKey envURL envAPIKey)).apiKey
        = (if hdrAPIKey ≠ [] then hdrAPIKey
           else if envAPIKey ≠ [] then envAPIKey else []))
    ∧ grafanaConfigFromContext
        (extractGrafanaInfoFromHeaders Context.background
          "http://hdr-url.example".data [] [] "env-key".data)
        = { url := "http://hdr-url.example".data, apiKey := "env-key".data } := by
  constructor
  · intro ctx hdrURL hdrAPIKey envURL envAPIKey
    constructor
    · by_cases h1 : trimRightSlash hdrURL = [] <;>
        by_cases h2 : trimRightSlash envURL = [] <;>
        simp [extractGrafanaInfoFromHeaders, grafanaConfigFromContext,
          withGrafanaConfig, Context.value, h1, h2]
    · by_cases h1 : hdrAPIKey = [] <;>
        by_cases h2 : envAPIKey = [] <;>
        simp [extractGrafanaInfoFromHeaders, grafanaConfigFromContext,
          withGrafanaConfig, Context.value, h1, h2]
  · decide

/-- C6: attaching a `GrafanaConfig` and resolving it returns exactly the
attached config, shadowing any previously attached one; resolving a context
that never had a config attached yields the documented zero value. -/
theorem claim_C6_config_roundtrip :
    (∀ (ctx : Context) (config : GrafanaConfig),
      grafanaConfigFromContext (withGrafanaConfig ctx config) = config)
    ∧ (∀ (ctx : Context) (c1 c2 : GrafanaConfig),
      grafanaConfigFromContext
        (withGrafanaConfig (withGrafanaConfig ctx c1) c2) = c2)
    ∧ (∀ ctx : Context, ctx.value CtxKey.grafanaConfig = none →
      grafanaConfigFromContext ctx
        = { debug := false, url := [], apiKey := [], accessToken := [],
            idToken := [], tlsConfig := none }) := by
  refine ⟨fun ctx c => rfl, fun ctx c1 c2 => rfl, fun ctx h => ?_⟩
  simp [grafanaConfigFromContext, h]

theorem claim_C6_witness :
    Context.background.value CtxKey.grafanaConfig = none
    ∧ grafanaConfigFromContext Context.background
        = { debug := false, url := [], apiKey := [], accessToken := [],
            idToken := [], tlsConfig := none } :=
  ⟨rfl, claim_C6_config_roundtrip.2.2 Context.background rfl⟩

/-- C5 counterexample: the rejection message used by `WithOnBehalfOfAuth` is
"neither accessToken nor userToken can be empty", not the claimed
"neither token may be empty". -/
theorem claim_C5_counterexample :
    withOnBehalfOfAuth Context.background [] []
      = Except.error ("neither accessToken nor userToken can be empty".data)
    ∧ "neither accessToken nor userToken can be empty".data
        ≠ "neither token may be empty".data := by
  exact ⟨rfl, by decide⟩

/-- C5 (amended): `WithOnBehalfOfAuth` fails with the error message
"neither accessToken nor userToken can be empty" whenever either token is
empty (including both empty), returning no context; with both tokens
non-empty it succeeds and the resolved configuration of the derived context
carries both tokens. -/
theorem claim_C5_on_behalf_of_amended :
    ∀ (ctx : Context) (accessToken userToken : Str),
      ((accessToken = [] ∨ userToken = []) →
        withOnBehalfOfAuth ctx accessToken userToken
          = .error ("neither accessToken nor userToken can be empty".data))
      ∧ (accessToken ≠ [] → userToken ≠ [] →
        withOnBehalfOfAuth ctx accessToken userToken
          = .ok (withGrafanaConfig ctx
              { grafanaConfigFromContext ctx with
                accessToken := accessToken, idToken := userToken })
        ∧ (grafanaConfigFromContext (withGrafanaConfig ctx
            { grafanaConfigFromContext ctx with
              accessToken := accessToken, idToken := userToken })).accessToken
            = accessToken
        ∧ (grafanaConfigFromContext (withGrafanaConfig ctx
            { grafanaConfigFromContext ctx with
              accessToken := accessToken, idToken := userToken })).idToken
            = userToken) := by
  intro ctx accessToken userToken
  constructor
  · intro h
    simp [withOnBehalfOfAuth, h]
  · intro h1 h2
    refine ⟨?_, rfl, rfl⟩
    simp [withOnBehalfOfAuth, h1, h2]

theorem claim_C5_witness :
    withOnBehalfOfAuth Context.background [] "id-token".data
      = .error ("neither accessToken nor userToken can be empty".data)
    ∧ withOnBehalfOfAuth Context.background "access-token".data "id-token".data
      = .ok (withGrafanaConfig Context.background
          { grafanaConfigFromContext Context.background with
            accessToken := "access-token".data, idToken := "id-token".data }) :=
  ⟨(claim_C5_on_behalf_of_amended Context.background [] "id-token".data).1
      (Or.inl rfl),
   ((claim_C5_on_behalf_of_amended Context.background
      "access-token".data "id-token".data).2 (by decide) (by decide)).1⟩

/-- A concrete filesystem/crypto collaborator on which every load fails
(shared by several witnesses). -/
def trivialGoFS : GoFS where
  loadKeyPair := fun _ _ => .error []
  readFile := fun _ => .error []
  appendCertsFromPEM := fun _ => false

/-- C4 counterexample: a `TLSConfig` with only `certFile` set materializes
successfully, with client-certificate authentication silently skipped (no
certificates loaded), instead of failing. -/
theorem claim_C4_counterexample :
    createTLSConfig trivialGoFS (some { certFile := "client.crt".data })
      = .ok (some { insecureSkipVerify := false, certificates := [],
                    rootCAs := none })
    ∧ exceptIsError
        (createTLSConfig trivialGoFS (some { certFile := "client.crt".data }))
        = false :=
  ⟨rfl, rfl⟩

/-- C4 (amended): when exactly one of `certFile`/`keyFile` is non-empty (and
no CA file is given), `CreateTLSConfig` succeeds with no client certificates
loaded: the pair is only loaded when both are non-empty, so half-supplied
client-cert configuration is silently skipped rather than rejected. -/
theorem claim_C4_half_pair_amended :
    ∀ (fs : GoFS) (tc : TLSConfig),
      (tc.certFile = [] ∨ tc.keyFile = []) → tc.caFile = [] →
      createTLSConfig fs (some tc)
        = .ok (some { insecureSkipVerify := tc.skipVerify,
                      certificates := [], rootCAs := none }) := by
  intro fs tc h hca
  have hpair : ¬ (tc.certFile ≠ [] ∧ tc.keyFile ≠ []) := by
    rcases h with h | h <;> simp [h]
  simp [createTLSConfig, hpair, hca]

theorem claim_C4_witness :
    ("server.key".data : Str) ≠ []
    ∧ createTLSConfig trivialGoFS
        (some { keyFile := "server.key".data, skipVerify := true })
      = .ok (some { insecureSkipVerify := true, certificates := [],
                    rootCAs := none }) :=
  ⟨by decide,
   claim_C4_half_pair_amended trivialGoFS
     { keyFile := "server.key".data, skipVerify := true } (Or.inl rfl) rfl⟩

/-- C3 counterexample: a supplied base URL containing a control character
fails Go's URL parse, and `ExtractGrafanaInfoFromEnv` then panics rather
than returning a typed ConfigError; in the earlier `ExtractGrafanaClientFromHeaders`
the same supplied-but-unparseable URL is silently ignored and the library
default host is kept. -/
theorem claim_C3_counterexample :
    (extractGrafanaInfoFromEnv Context.background
      ("http://a".data ++ [Char.ofNat 1]) []).isPanicked = true
    ∧ (extractGrafanaClientFromHeadersV1 Context.background
        ("http://a".data ++ [Char.ofNat 1]) [] [] []).host
        = "localhost:3000".data := by
  exact ⟨by decide, by decide⟩

/-- C3 (amended): a supplied base URL that fails to parse is NOT surfaced as
a typed ConfigError: `ExtractGrafanaInfoFromEnv` panics (process abort), and
the earlier header-driven client composer silently falls back to the library
default host and base path, ignoring the supplied value. -/
theorem claim_C3_parse_failure_amended :
    (∀ (ctx : Context) (envURL envAPIKey e : Str),
      trimRightSlash envURL ≠ [] →
      goURLParse (trimRightSlash envURL) = .error e →
      (extractGrafanaInfoFromEnv ctx envURL envAPIKey).isPanicked = true)
    ∧ (∀ (ctx : Context) (hdrURL hdrAPIKey envURL envAPIKey e : Str),
      hdrURL ≠ [] →
      goURLParse hdrURL = .error e →
      (extractGrafanaClientFromHeadersV1 ctx hdrURL hdrAPIKey envURL envAPIKey).host
          = "localhost:3000".data
        ∧ (extractGrafanaClientFromHeadersV1 ctx hdrURL hdrAPIKey envURL envAPIKey).basePath
          = "/api".data) := by
  constructor
  · intro ctx envURL envAPIKey e h1 h2
    simp [extractGrafanaInfoFromEnv, h1, h2, Outcome.isPanicked]
  · intro ctx hdrURL hdrAPIKey envURL envAPIKey e h1 h2
    by_cases hk : (if hdrAPIKey = [] then envAPIKey else hdrAPIKey) = [] <;>
      constructor <;>
      simp [extractGrafanaClientFromHeadersV1, h1, h2, hk]

theorem claim_C3_witness :
    trimRightSlash ("http://b".data ++ [Char.ofNat 2]) ≠ []
    ∧ (extractGrafanaInfoFromEnv Context.background
        ("http://b".data ++ [Char.ofNat 2]) "key".data).isPanicked = true
    ∧ (extractGrafanaClientFromHeadersV1 Context.background
        ("http://b".data ++ [Char.ofNat 2]) "key".data [] []).basePath
        = "/api".data :=
  ⟨by decide,
   claim_C3_parse_failure_amended.1 Context.background
     ("http://b".data ++ [Char.ofNat 2]) "key".data
     "net/url: invalid control character in URL".data (by decide) rfl,
   (claim_C3_parse_failure_amended.2 Context.background
     ("http://b".data ++ [Char.ofNat 2]) "key".data [] []
     "net/url: invalid control character in URL".data (by decide) rfl).2⟩

/-- Whether a string contains two consecutive slashes. -/
def hasDoubleSlash : Str → Bool
  | c1 :: c2 :: rest =>
    (decide (c1 = '/') && decide (c2 = '/')) || hasDoubleSlash (c2 :: rest)
  | _ => false

theorem hasDoubleSlash_append_false :
    ∀ (u w : Str), hasDoubleSlash (u ++ w) = false → hasDoubleSlash u = false := by
  intro u w h
  induction u with
  | nil => rfl
  | cons c1 t ih =>
    cases t with
    | nil => rfl
    | cons c2 rest =>
      simp only [List.cons_append, hasDoubleSlash, Bool.or_eq_false_iff,
        Bool.and_eq_false_iff] at h ⊢
      exact ⟨h.1, ih h.2⟩

theorem head?_dropWhile_eq_some {f : Char → Bool} {c : Char} :
    ∀ l : Str, (l.dropWhile f).head? = some c → f c = false := by
  intro l h
  induction l with
  | nil => simp [List.dropWhile] at h
  | cons a t ih =>
    by_cases hfa : f a
    · rw [List.dropWhile_cons_of_pos hfa] at h
      exact ih h
    · rw [List.dropWhile_cons_of_neg hfa] at h
      simp only [List.head?_cons, Option.some.injEq] at h
      rw [← h]
      exact Bool.eq_false_iff.mpr hfa

theorem getLast?_trimRightSlash (p : Str) :
    (trimRightSlash p).getLast? ≠ some '/' := by
  intro h
  rw [trimRightSlash, goTrimRight, List.getLast?_reverse] at h
  have := head?_dropWhile_eq_some _ h
  simp at this

theorem trimRightSlash_append_slash (p : Str) :
    trimRightSlash (p ++ "/".data) = trimRightSlash p := by
  simp [trimRightSlash, goTrimRight, List.reverse_append, List.dropWhile]

theorem makeBasePath_eq (p : Str) :
    makeBasePath p = trimRightSlash p ++ "/api".data := rfl

theorem trimRightSlash_prefixOf (p : Str) :
    ∃ w : Str, p = trimRightSlash p ++ w := by
  obtain ⟨u, hu⟩ :=
    List.dropWhile_suffix (l := p.reverse) (fun c => List.contains ['/'] c)
  refine ⟨u.reverse, ?_⟩
  calc p = p.reverse.reverse := (List.reverse_reverse p).symm
  _ = (u ++ p.reverse.dropWhile (fun c => List.contains ['/'] c)).reverse := by
      rw [hu]
  _ = trimRightSlash p ++ u.reverse := by
      rw [List.reverse_append]; rfl

theorem hasDoubleSlash_join :
    ∀ (t : Str), hasDoubleSlash t = false → t.getLast? ≠ some '/' →
      hasDoubleSlash (t ++ "/api".data) = false := by
  intro t h hl
  induction t with
  | nil => decide
  | cons c1 t2 ih =>
    cases t2 with
    | nil =>
      simp only [List.getLast?_singleton, ne_eq, Option.some.injEq] at hl
      simp [hasDoubleSlash, hl]
    | cons c2 rest =>
      rw [List.getLast?_cons_cons] at hl
      simp only [hasDoubleSlash, Bool.or_eq_false_iff,
        Bool.and_eq_false_iff] at h
      simp only [List.cons_append, hasDoubleSlash, Bool.or_eq_false_iff,
        Bool.and_eq_false_iff]
      exact ⟨h.1, ih h.2 hl⟩

/-- C8: `makeBasePath` produces exactly one trailing `/api` segment with no
doubled slash introduced at the join, for paths with or without a trailing
slash and with or without an existing sub-path prefix: the empty path yields
`/api`, while `/grafana` and `/grafana/` both yield `/grafana/api`.  In
general the result is the trailing-slash-trimmed path joined to `/api` by a
single slash, the trimmed prefix never ends in a slash, adding a trailing
slash to the input never changes the result, and a slash-duplication-free
input yields a slash-duplication-free result. -/
theorem claim_C8_makeBasePath :
    makeBasePath [] = "/api".data
    ∧ makeBasePath "/grafana".data = "/grafana/api".data
    ∧ makeBasePath "/grafana/".data = "/grafana/api".data
    ∧ (∀ p : Str, makeBasePath (p ++ "/".data) = makeBasePath p)
    ∧ (∀ p : Str, makeBasePath p = trimRightSlash p ++ "/api".data
        ∧ (trimRightSlash p).getLast? ≠ some '/')
    ∧ (∀ p : Str, hasDoubleSlash p = false →
        hasDoubleSlash (makeBasePath p) = false) := by
  refine ⟨by decide, by decide, by decide, ?_, ?_, ?_⟩
  · intro p
    rw [makeBasePath_eq, makeBasePath_eq, trimRightSlash_append_slash]
  · intro p
    exact ⟨makeBasePath_eq p, getLast?_trimRightSlash p⟩
  · intro p h
    rw [makeBasePath_eq]
    obtain ⟨w, hw⟩ := trimRightSlash_prefixOf p
    refine hasDoubleSlash_join _ ?_ (getLast?_trimRightSlash p)
    exact hasDoubleSlash_append_false _ _ (hw ▸ h)

theorem claim_C8_witness :
    hasDoubleSlash "/grafana/".data = false
    ∧ hasDoubleSlash (makeBasePath "/grafana/".data) = false :=
  ⟨by decide, claim_C8_makeBasePath.2.2.2.2.2 "/grafana/".data (by decide)⟩

theorem getHeader_cons (a : Str × Str) (t : Headers) (k : Str) :
    getHeader (a :: t) k = if a.1 = k then some a.2 else getHeader t k := by
  by_cases h : a.1 = k <;> simp [getHeader, List.find?, h]

theorem getHeader_filter (l : Headers) (k k' : Str) (hne : k' ≠ k) :
    getHeader (l.filter (fun p => decide (p.1 ≠ k))) k' = getHeader l k' := by
  induction l with
  | nil => rfl
  | cons a t ih =>
    by_cases hak : a.1 = k
    · have hd : decide (a.1 ≠ k) = false := by simp [hak]
      have hne2 : a.1 ≠ k' := fun hh => hne (hh.symm.trans hak)
      rw [List.filter_cons, hd]
      simp only [Bool.false_eq_true, if_false]
      rw [ih, getHeader_cons, if_neg hne2]
    · have hd : decide (a.1 ≠ k) = true := by simp [hak]
      rw [List.filter_cons, hd]
      simp only [if_true]
      rw [getHeader_cons, getHeader_cons, ih]

theorem getHeader_set_same (l : Headers) (k v : Str) :
    getHeader (setHeader l k v) k = some v := by
  rw [setHeader, getHeader_cons, if_pos rfl]

theorem getHeader_set_other (l : Headers) (k v k' : Str) (hne : k' ≠ k) :
    getHeader (setHeader l k v) k' = getHeader l k' := by
  rw [setHeader, getHeader_cons, if_neg (fun hh => hne hh.symm),
    getHeader_filter _ _ _ hne]

/-- C2: both the Loki `authRoundTripper` and the alerting client's request
builder choose exactly one credential scheme per outgoing request: with both
tokens non-empty, the two token headers are set and the Authorization header
is not; otherwise with a non-empty apiKey, only the single bearer
Authorization header is set; with neither, no auth header is set at all. -/
theorem claim_C2_single_auth_scheme :
    ∀ (rt : AuthFields) (h : Headers) (c : AlertingClient),
      (rt.accessToken ≠ [] → rt.idToken ≠ [] →
        getHeader (authRoundTripHeaders rt h) "X-Access-Token".data
            = some rt.accessToken
        ∧ getHeader (authRoundTripHeaders rt h) "X-Grafana-Id".data
            = some rt.idToken
        ∧ getHeader (authRoundTripHeaders rt h) "Authorization".data
            = getHeader h "Authorization".data)
      ∧ ((rt.accessToken = [] ∨ rt.idToken = []) → rt.apiKey ≠ [] →
        getHeader (authRoundTripHeaders rt h) "Authorization".data
            = some ("Bearer ".data ++ rt.apiKey)
        ∧ getHeader (authRoundTripHeaders rt h) "X-Access-Token".data
            = getHeader h "X-Access-Token".data
        ∧ getHeader (authRoundTripHeaders rt h) "X-Grafana-Id".data
            = getHeader h "X-Grafana-Id".data)
      ∧ ((rt.accessToken = [] ∨ rt.idToken = []) → rt.apiKey = [] →
        authRoundTripHeaders rt h = h)
      ∧ (c.accessToken ≠ [] → c.userToken ≠ [] →
        getHeader (alertingRequestHeaders c) "X-Access-Token".data
            = some c.accessToken
        ∧ getHeader (alertingRequestHeaders c) "X-Grafana-Id".data
            = some c.userToken
        ∧ getHeader (alertingRequestHeaders c) "Authorization".data = none)
      ∧ ((c.accessToken = [] ∨ c.userToken = []) → c.apiKey ≠ [] →
        getHeader (alertingRequestHeaders c) "Authorization".data
            = some ("Bearer ".data ++ c.apiKey)
        ∧ getHeader (alertingRequestHeaders c) "X-Access-Token".data = none
        ∧ getHeader (alertingRequestHeaders c) "X-Grafana-Id".data = none)
      ∧ ((c.accessToken = [] ∨ c.userToken = []) → c.apiKey = [] →
        getHeader (alertingRequestHeaders c) "Authorization".data = none
        ∧ getHeader (alertingRequestHeaders c) "X-Access-Token".data = none
        ∧ getHeader (alertingRequestHeaders c) "X-Grafana-Id".data = none) := by
  intro rt h c
  refine ⟨?_, ?_, ?_, ?_, ?_, ?_⟩
  · intro h1 h2
    rw [authRoundTripHeaders, if_pos ⟨h1, h2⟩]
    refine ⟨?_, ?_, ?_⟩
    · rw [getHeader_set_other _ _ _ _ (by decide), getHeader_set_same]
    · rw [getHeader_set_same]
    · rw [getHeader_set_other _ _ _ _ (by decide),
        getHeader_set_other _ _ _ _ (by decide)]
  · intro hor hk
    have hC : ¬ (rt.accessToken ≠ [] ∧ rt.idToken ≠ []) := by
      rcases hor with h' | h' <;> simp [h']
    rw [authRoundTripHeaders, if_neg hC, if_pos hk]
    refine ⟨getHeader_set_same _ _ _, ?_, ?_⟩
    · rw [getHeader_set_other _ _ _ _ (by decide)]
    · rw [getHeader_set_other _ _ _ _ (by decide)]
  · intro hor hk
    have hC : ¬ (rt.accessToken ≠ [] ∧ rt.idToken ≠ []) := by
      rcases hor with h' | h' <;> simp [h']
    rw [authRoundTripHeaders, if_neg hC, if_neg (by simp [hk])]
  · intro h1 h2
    rw [alertingRequestHeaders, if_pos ⟨h1, h2⟩]
    refine ⟨?_, ?_, ?_⟩
    · rw [getHeader_set_other _ _ _ _ (by decide), getHeader_set_same]
    · rw [getHeader_set_same]
    · rw [getHeader_set_other _ _ _ _ (by decide),
        getHeader_set_other _ _ _ _ (by decide)]
      decide
  · intro hor hk
    have hC : ¬ (c.accessToken ≠ [] ∧ c.userToken ≠ []) := by
      rcases hor with h' | h' <;> simp [h']
    rw [alertingRequestHeaders, if_neg hC, if_pos hk]
    refine ⟨getHeader_set_same _ _ _, ?_, ?_⟩
    · rw [getHeader_set_other _ _ _ _ (by decide)]
      decide
    · rw [getHeader_set_other _ _ _ _ (by decide)]
      decide
  · intro hor hk
    have hC : ¬ (c.accessToken ≠ [] ∧ c.userToken ≠ []) := by
      rcases hor with h' | h' <;> simp [h']
    rw [alertingRequestHeaders, if_neg hC, if_neg (by simp [hk])]
    exact ⟨by decide, by decide, by decide⟩

theorem claim_C2_witness :
    getHeader
      (authRoundTripHeaders
        { accessToken := "at".data, idToken := "it".data, apiKey := "key".data }
        []) "Authorization".data = none
    ∧ getHeader
        (authRoundTripHeaders
          { accessToken := "at".data, idToken := "it".data, apiKey := "key".data }
          []) "X-Access-Token".data = some "at".data
    ∧ getHeader
        (alertingRequestHeaders
          { baseURL := {}, apiKey := "key".data }) "Authorization".data
        = some ("Bearer ".data ++ "key".data)
    ∧ getHeader
        (alertingRequestHeaders { baseURL := {} }) "Authorization".data
        = none := by
  refine ⟨?_, ?_, ?_, ?_⟩
  · exact ((claim_C2_single_auth_scheme
      { accessToken := "at".data, idToken := "it".data, apiKey := "key".data }
      [] { baseURL := {} }).1 (by decide) (by decide)).2.2
  · exact ((claim_C2_single_auth_scheme
      { accessToken := "at".data, idToken := "it".data, apiKey := "key".data }
      [] { baseURL := {} }).1 (by decide) (by decide)).1
  · exact ((claim_C2_single_auth_scheme {} []
      { baseURL := {}, apiKey := "key".data }).2.2.2.2.1
      (Or.inl rfl) (by decide)).1
  · exact ((claim_C2_single_auth_scheme {} []
      { baseURL := {} }).2.2.2.2.2 (Or.inl rfl) rfl).1

theorem newLokiClient_trace (env : LokiEnv) (fs : GoFS) (cfg : GrafanaConfig)
    (uid : Str) :
    (newLokiClient env fs cfg uid).2 = [UpstreamCall.datasourceLookup uid] := by
  rcases h1 : env.lookupDatasource uid with e | u1
  · simp [newLokiClient, h1]
  · rcases h2 : cfg.tlsConfig with _ | t
    · simp [newLokiClient, h1, h2]
    · rcases h3 : createTLSConfig fs (some t) with e | r <;>
        simp [newLokiClient, h1, h2, h3]

theorem lokiMakeRequest_mem_params (env : LokiEnv) (c : LokiClient)
    (path : Str) (params : List (Str × Str)) (u : Str) (p : List (Str × Str))
    (hm : UpstreamCall.lokiRequest u p ∈ (lokiMakeRequest env c path params).2) :
    p = params := by
  rcases h1 : goURLParse (buildURL c path) with e | uu
  · simp [lokiMakeRequest, h1] at hm
  · rcases h2 : env.httpDo (buildURL c path) params with e | pr
    · simp [lokiMakeRequest, h1, h2] at hm
      exact hm.2
    · obtain ⟨st, body⟩ := pr
      simp only [lokiMakeRequest, h1, h2] at hm
      split_ifs at hm <;> simp_all

theorem enforceLogLimit_pos (n : Int) : 0 < enforceLogLimit n := by
  simp only [enforceLogLimit, defaultLokiLogLimit, maxLokiLogLimit]
  split_ifs <;> omega

theorem enforceLogLimit_le (n : Int) : enforceLogLimit n ≤ 100 := by
  simp only [enforceLogLimit, defaultLokiLogLimit, maxLokiLogLimit]
  split_ifs <;> omega

theorem fetchLogs_limit_mem (env : LokiEnv) (c : LokiClient)
    (q s e : Str) (lim : Int) (dir u : Str) (p : List (Str × Str))
    (hl : 0 < lim)
    (hm : UpstreamCall.lokiRequest u p ∈ (fetchLogs env c q s e lim dir).2) :
    ("limit".data, intToStr lim) ∈ p := by
  rcases h1 : addTimeRangeParams env [("query".data, q)] s e with e1 | params1
  · simp [fetchLogs, h1] at hm
  · simp only [fetchLogs, h1] at hm
    rw [if_pos hl] at hm
    have hp := lokiMakeRequest_mem_params env c "/loki/api/v1/query_range".data
      (if dir ≠ [] then
        (params1 ++ [("limit".data, intToStr lim)]) ++ [("direction".data, dir)]
       else params1 ++ [("limit".data, intToStr lim)]) u p ?_
    · rw [hp]
      by_cases hd : dir = []
      · simp [hd]
      · simp [hd]
    · rcases h2 : lokiMakeRequest env c "/loki/api/v1/query_range".data
        (if dir ≠ [] then
          (params1 ++ [("limit".data, intToStr lim)]) ++ [("direction".data, dir)]
         else params1 ++ [("limit".data, intToStr lim)]) with ⟨res2, tr2⟩
      rcases res2 with e2 | body
      · rw [h2] at hm
        simpa [h2] using hm
      · rw [h2] at hm
        rcases h3 : env.decodeQueryRange body with _ | qr
        · simp only [h3] at hm
          simpa [h2] using hm
        · simp only [h3] at hm
          split_ifs at hm <;> simpa [h2] using hm

theorem queryLokiLogs_limit_mem (env : LokiEnv) (fs : GoFS)
    (cfg : GrafanaConfig) (args : QueryLokiLogsParams) (u : Str)
    (p : List (Str × Str))
    (hm : UpstreamCall.lokiRequest u p ∈ (queryLokiLogs env fs cfg args).2) :
    ("limit".data, intToStr (enforceLogLimit args.limit)) ∈ p := by
  rcases h1 : newLokiClient env fs cfg args.datasourceUID with ⟨res, tr⟩
  have htr : tr = [UpstreamCall.datasourceLookup args.datasourceUID] := by
    have h := newLokiClient_trace env fs cfg args.datasourceUID
    rw [h1] at h
    exact h
  rcases res with e | c
  · simp only [queryLokiLogs, h1] at hm
    rw [htr] at hm
    simp at hm
  · simp only [queryLokiLogs, h1] at hm
    rcases h2 : fetchLogs env c args.logql
        (getDefaultTimeRange env args.startRFC3339 args.endRFC3339).1
        (getDefaultTimeRange env args.startRFC3339 args.endRFC3339).2
        (enforceLogLimit args.limit)
        (if args.direction = [] then "backward".data else args.direction)
      with ⟨res2, tr2⟩
    have hm2 : UpstreamCall.lokiRequest u p ∈ tr ++ tr2 := by
      rcases res2 with e2 | streams
      · simpa [h2] using hm
      · by_cases h3 : streams.length = 0
        · simpa [h2, h3] using hm
        · by_cases h4 : (convertStreams env streams).length = 0
          · simpa [h2, h3, h4] using hm
          · simpa [h2, h3, h4] using hm
    rcases List.mem_append.mp hm2 with hma | hmb
    · rw [htr] at hma
      simp at hma
    · refine fetchLogs_limit_mem env c args.logql
        (getDefaultTimeRange env args.startRFC3339 args.endRFC3339).1
        (getDefaultTimeRange env args.startRFC3339 args.endRFC3339).2
        (enforceLogLimit args.limit)
        (if args.direction = [] then "backward".data else args.direction)
        u p (enforceLogLimit_pos args.limit) ?_
      rw [h2]
      exact hmb

/-- C7: `newLokiClient` performs the datasource-existence lookup first; when
that lookup fails the error is returned with no client, and the upstream
trace holds only the lookup — no Loki call is ever made, including when the
whole `queryLokiLogs` tool runs with that datasource. -/
theorem claim_C7_lookup_first :
    ∀ (env : LokiEnv) (fs : GoFS) (cfg : GrafanaConfig) (uid e : Str)
      (args : QueryLokiLogsParams),
      env.lookupDatasource uid = .error e →
      newLokiClient env fs cfg uid
          = (.error e, [UpstreamCall.datasourceLookup uid])
      ∧ (∀ (u : Str) (p : List (Str × Str)),
          UpstreamCall.lokiRequest u p ∉ (newLokiClient env fs cfg uid).2)
      ∧ (args.datasourceUID = uid →
          queryLokiLogs env fs cfg args
            = (.error ("creating Loki client: ".data ++ e),
               [UpstreamCall.datasourceLookup uid])) := by
  intro env fs cfg uid e args herr
  have hclient : newLokiClient env fs cfg uid
      = (.error e, [UpstreamCall.datasourceLookup uid]) := by
    simp [newLokiClient, herr]
  refine ⟨hclient, ?_, ?_⟩
  · intro u p
    rw [newLokiClient_trace]
    simp
  · intro hargs
    subst hargs
    simp [queryLokiLogs, hclient]

/-- A Loki environment whose datasource lookup always fails (witness
collaborator). -/
def failingLookupEnv : LokiEnv where
  lookupDatasource := fun _ => .error "datasource not found".data
  httpDo := fun _ _ => .error []
  decodeQueryRange := fun _ => none
  unmarshalString := fun _ => none
  parseFloat := fun _ => none
  unmarshalFloat := fun _ => none
  parseRFC3339 := fun _ => none

theorem claim_C7_witness :
    newLokiClient failingLookupEnv trivialGoFS {} "loki-uid".data
      = (.error "datasource not found".data,
         [UpstreamCall.datasourceLookup "loki-uid".data])
    ∧ queryLokiLogs failingLookupEnv trivialGoFS {}
        { datasourceUID := "loki-uid".data }
      = (.error ("creating Loki client: ".data ++ "datasource not found".data),
         [UpstreamCall.datasourceLookup "loki-uid".data]) :=
  ⟨(claim_C7_lookup_first failingLookupEnv trivialGoFS {} "loki-uid".data
      "datasource not found".data { datasourceUID := "loki-uid".data } rfl).1,
   (claim_C7_lookup_first failingLookupEnv trivialGoFS {} "loki-uid".data
      "datasource not found".data { datasourceUID := "loki-uid".data } rfl).2.2
      rfl⟩

/-- C10: the effective Loki log limit always lies in [1, 100]: a requested
limit at most zero becomes the default 10, one above 100 is capped at 100,
anything in between passes through; and every query-range request issued by
`queryLokiLogs` carries exactly `enforceLogLimit` of the requested limit as
its `limit` parameter. -/
theorem claim_C10_effective_limit :
    (∀ n : Int,
      (n ≤ 0 → enforceLogLimit n = 10)
      ∧ (n > 100 → enforceLogLimit n = 100)
      ∧ (1 ≤ n → n ≤ 100 → enforceLogLimit n = n)
      ∧ 1 ≤ enforceLogLimit n ∧ enforceLogLimit n ≤ 100)
    ∧ (∀ (env : LokiEnv) (fs : GoFS) (cfg : GrafanaConfig)
        (args : QueryLokiLogsParams) (u : Str) (p : List (Str × Str)),
        UpstreamCall.lokiRequest u p ∈ (queryLokiLogs env fs cfg args).2 →
        ("limit".data, intToStr (enforceLogLimit args.limit)) ∈ p) := by
  constructor
  · intro n
    refine ⟨?_, ?_, ?_, ?_, ?_⟩
    · intro h
      simp [enforceLogLimit, defaultLokiLogLimit, h]
    · intro h
      have hn : ¬ n ≤ 0 := by omega
      simp [enforceLogLimit, defaultLokiLogLimit, maxLokiLogLimit, hn, h]
    · intro h1 h2
      have hn : ¬ n ≤ 0 := by omega
      have hm : ¬ n > 100 := by omega
      simp [enforceLogLimit, defaultLokiLogLimit, maxLokiLogLimit, hn, hm]
    · have := enforceLogLimit_pos n
      omega
    · exact enforceLogLimit_le n
  · exact queryLokiLogs_limit_mem

/-- A Loki environment where every upstream call succeeds with an empty
result set (witness collaborator). -/
def okLokiEnv : LokiEnv where
  lookupDatasource := fun _ => .ok ()
  httpDo := fun _ _ => .ok (200, "resp".data)
  decodeQueryRange := fun _ => some { status := "success".data }
  unmarshalString := fun _ => none
  parseFloat := fun _ => none
  unmarshalFloat := fun _ => none
  parseRFC3339 := fun _ => some 0
  nowRFC3339 := "2025-01-01T00:00:00Z".data
  oneHourAgoRFC3339 := "2024-12-31T23:00:00Z".data

/-- The configuration used by the concrete Loki runs below. -/
def lokiCexConfig : GrafanaConfig := { url := "http://grafana".data }

/-- Concrete query arguments with an explicit time range. -/
def lokiCexArgs : QueryLokiLogsParams :=
  { datasourceUID := "loki".data, logql := "q".data,
    startRFC3339 := "s".data, endRFC3339 := "e".data,
    direction := "forward".data }

/-- The same arguments with a negative requested limit. -/
def lokiNegArgs : QueryLokiLogsParams := { lokiCexArgs with limit := -1 }

/-- The query-range URL those runs hit. -/
def lokiQueryURL : Str :=
  "http://grafana/api/datasources/proxy/uid/loki/loki/api/v1/query_range".data

/-- The query parameters those runs send. -/
def lokiQueryParams : List (Str × Str) :=
  [("query".data, "q".data), ("start".data, intToStr 0),
   ("end".data, intToStr 0), ("limit".data, intToStr 10),
   ("direction".data, "forward".data)]

theorem claim_C10_witness :
    enforceLogLimit (-5) = 10
    ∧ UpstreamCall.lokiRequest lokiQueryURL lokiQueryParams
        ∈ (queryLokiLogs okLokiEnv trivialGoFS lokiCexConfig lokiCexArgs).2
    ∧ ("limit".data, intToStr (enforceLogLimit lokiCexArgs.limit))
        ∈ lokiQueryParams :=
  ⟨(claim_C10_effective_limit.1 (-5)).1 (by decide),
   by decide,
   claim_C10_effective_limit.2 okLokiEnv trivialGoFS lokiCexConfig lokiCexArgs
     lokiQueryURL lokiQueryParams (by decide)⟩

theorem queryLokiLogs_trace_head (env : LokiEnv) (fs : GoFS)
    (cfg : GrafanaConfig) (args : QueryLokiLogsParams) :
    (queryLokiLogs env fs cfg args).2.head?
      = some (UpstreamCall.datasourceLookup args.datasourceUID) := by
  rcases h1 : newLokiClient env fs cfg args.datasourceUID with ⟨res, tr⟩
  have htr : tr = [UpstreamCall.datasourceLookup args.datasourceUID] := by
    have h := newLokiClient_trace env fs cfg args.datasourceUID
    rw [h1] at h
    exact h
  rcases res with e | c
  · simp [queryLokiLogs, h1, htr]
  · rcases h2 : fetchLogs env c args.logql
        (getDefaultTimeRange env args.startRFC3339 args.endRFC3339).1
        (getDefaultTimeRange env args.startRFC3339 args.endRFC3339).2
        (enforceLogLimit args.limit)
        (if args.direction = [] then "backward".data else args.direction)
      with ⟨res2, tr2⟩
    rcases res2 with e2 | streams
    · simp [queryLokiLogs, h1, h2, htr]
    · by_cases h3 : streams.length = 0
      · simp [queryLokiLogs, h1, h2, h3, htr]
      · by_cases h4 : (convertStreams env streams).length = 0
        · simp [queryLokiLogs, h1, h2, h3, h4, htr]
        · simp [queryLokiLogs, h1, h2, h3, h4, htr]

/-- C9 counterexample: `queryLokiLogs` with a negative requested limit does
NOT return a validation error before contacting upstream — the run succeeds,
the datasource lookup and the Loki query are both made, and the negative
limit is silently replaced by the default 10 in the outgoing request. -/
theorem claim_C9_counterexample :
    (queryLokiLogs okLokiEnv trivialGoFS lokiCexConfig lokiNegArgs).1
      = Except.ok []
    ∧ (queryLokiLogs okLokiEnv trivialGoFS lokiCexConfig lokiNegArgs).2
      = [UpstreamCall.datasourceLookup "loki".data,
         UpstreamCall.lokiRequest lokiQueryURL lokiQueryParams] :=
  ⟨rfl, by decide⟩

/-- C9 (amended): numeric argument validation is tool-specific.
`listAlertRules` rejects a negative limit or page with a validation error
before any upstream call (empty upstream trace); `queryLokiLogs`, by
contrast, never rejects a negative limit: the datasource lookup still runs
(it is the first upstream call of every invocation) and any issued
query-range request carries the default limit 10 instead. -/
theorem claim_C9_negative_args_amended :
    (∀ (env : AlertingEnv) (ctx : Context) (args : ListAlertRulesParams),
      (args.limit < 0 ∨ args.page < 0) →
      exceptIsError (listAlertRules env ctx args).1 = true
      ∧ (listAlertRules env ctx args).2 = [])
    ∧ (∀ (env : LokiEnv) (fs : GoFS) (cfg : GrafanaConfig)
        (args : QueryLokiLogsParams),
      args.limit < 0 →
      (queryLokiLogs env fs cfg args).2.head?
          = some (UpstreamCall.datasourceLookup args.datasourceUID)
      ∧ ∀ (u : Str) (p : List (Str × Str)),
          UpstreamCall.lokiRequest u p ∈ (queryLokiLogs env fs cfg args).2 →
          ("limit".data, intToStr (10 : Int)) ∈ p) := by
  constructor
  · intro env ctx args h
    rcases h with h | h
    · constructor <;>
        simp [listAlertRules, listAlertRulesValidate, h, exceptIsError]
    · by_cases hl : args.limit < 0 <;>
        constructor <;>
        simp [listAlertRules, listAlertRulesValidate, hl, h, exceptIsError]
  · intro env fs cfg args h
    refine ⟨queryLokiLogs_trace_head env fs cfg args, ?_⟩
    intro u p hm
    have hlim : enforceLogLimit args.limit = 10 := by
      have h0 : args.limit ≤ 0 := by omega
      simp [enforceLogLimit, defaultLokiLogLimit, h0]
    have := queryLokiLogs_limit_mem env fs cfg args u p hm
    rw [hlim] at this
    exact this

/-- An alerting environment whose upstream always fails (witness
collaborator; it is never reached in the witness below). -/
def failAlertEnv : AlertingEnv where
  httpDo := fun _ _ => .error []
  decodeRules := fun _ => none

theorem claim_C9_witness :
    exceptIsError (listAlertRules failAlertEnv Context.background
      { limit := -1 }).1 = true
    ∧ (listAlertRules failAlertEnv Context.background { limit := -1 }).2 = []
    ∧ (queryLokiLogs okLokiEnv trivialGoFS lokiCexConfig lokiNegArgs).2.head?
        = some (UpstreamCall.datasourceLookup "loki".data)
    ∧ ("limit".data, intToStr (10 : Int)) ∈ lokiQueryParams :=
  ⟨(claim_C9_negative_args_amended.1 failAlertEnv Context.background
      { limit := -1 } (Or.inl (by decide))).1,
   (claim_C9_negative_args_amended.1 failAlertEnv Context.background
      { limit := -1 } (Or.inl (by decide))).2,
   (claim_C9_negative_args_amended.2 okLokiEnv trivialGoFS lokiCexConfig
      lokiNegArgs (by decide)).1,
   (claim_C9_negative_args_amended.2 okLokiEnv trivialGoFS lokiCexConfig
      lokiNegArgs (by decide)).2 lokiQueryURL lokiQueryParams (by decide)⟩
